import Mathlib

/-!
Shallow embedding of the BLE capture decoder of `ESP32-Instax-Bridge`
(`Bluetooth Packet Capture/ti_psd_parser.py` and
`Bluetooth Packet Capture/it_psd_to_pcap.py`).

Byte buffers are modelled as `List Nat` (each entry a byte value 0..255;
theorems that need the range add it as a hypothesis).  Python float
arithmetic on timestamps and connection parameters is modelled with `ℚ`:
every multiplication appearing in the source (`* 1.25`, `* 10`, `/ 32.0`)
is exact on the value ranges the source produces.  Fallible Python
operations (sequence indexing, `struct.unpack` on wrongly sized slices)
are modelled twice: a total version using `List.getD` (the values the
source actually computes) and an `Except`-instrumented version that
errors exactly where CPython would raise, so that "never raises" is a
provable statement.
-/

/-- `RECORD_SIZE = 271` from `ti_psd_parser.py`. -/
def RECORD_SIZE : Nat := 271

/-- `HEADER_SIZE = 16` from `ti_psd_parser.py`. -/
def HEADER_SIZE : Nat := 16

/-- `BLE_ADV_ACCESS_ADDR = bytes([0xd6, 0xbe, 0x89, 0x8e])`. -/
def BLE_ADV_ACCESS_ADDR : List Nat := [0xd6, 0xbe, 0x89, 0x8e]

/-- One hex digit, uppercase (Python `"%X"` digits). -/
def hexDigitUpper (n : Nat) : Char :=
  if n < 10 then Char.ofNat (48 + n)
  else Char.ofNat (65 + (n - 10))

/-- One hex digit, lowercase (Python `"%x"` digits, as used by `bytes.hex()`). -/
def hexDigitLower (n : Nat) : Char :=
  if n < 10 then Char.ofNat (48 + n)
  else Char.ofNat (97 + (n - 10))

/-- Hex digits of `n`, most significant first (no leading zeros; `0` for zero).
Fuel-structural; callers pass `n` itself as fuel, which is plenty since
`n / 16 < n` for `n > 0`. -/
def hexDigitsAux (digit : Nat → Char) : Nat → Nat → List Char → List Char
  | 0, n, acc => digit (n % 16) :: acc
  | fuel + 1, n, acc =>
    if n < 16 then digit n :: acc
    else hexDigitsAux digit fuel (n / 16) (digit (n % 16) :: acc)

/-- Python `f"{n:0wX}"`: uppercase hex of `n`, left-padded with `0` to width `w`. -/
def hexPadUpper (w n : Nat) : String :=
  let ds := hexDigitsAux hexDigitUpper n n []
  ⟨List.replicate (w - ds.length) '0' ++ ds⟩

/-- Python `f"{n:0wx}"`: lowercase hex of `n`, left-padded with `0` to width `w`. -/
def hexPadLower (w n : Nat) : String :=
  let ds := hexDigitsAux hexDigitLower n n []
  ⟨List.replicate (w - ds.length) '0' ++ ds⟩

/-- Python `bytes.hex()`: two lowercase hex digits per byte, concatenated. -/
def bytes_hex (b : List Nat) : String :=
  String.join (b.map (hexPadLower 2))

/-- `bytes_to_mac` from `ti_psd_parser.py`:
`':'.join(f'{x:02X}' for x in reversed(b))`. -/
def bytes_to_mac (b : List Nat) : String :=
  String.intercalate ":" (b.reverse.map (hexPadUpper 2))

/-- `get_pdu_type_name` from `ti_psd_parser.py`. -/
def get_pdu_type_name (pdu_type : Nat) : String :=
  if pdu_type = 0x00 then "ADV_IND"
  else if pdu_type = 0x01 then "ADV_DIRECT_IND"
  else if pdu_type = 0x02 then "ADV_NONCONN_IND"
  else if pdu_type = 0x03 then "SCAN_REQ"
  else if pdu_type = 0x04 then "SCAN_RSP"
  else if pdu_type = 0x05 then "CONNECT_IND"
  else if pdu_type = 0x06 then "ADV_SCAN_IND"
  else "UNKNOWN_0x" ++ hexPadUpper 2 pdu_type

/-- `get_ad_type_name` from `ti_psd_parser.py`. -/
def get_ad_type_name (ad_type : Nat) : String :=
  if ad_type = 0x01 then "Flags"
  else if ad_type = 0x02 then "Incomplete 16-bit UUIDs"
  else if ad_type = 0x03 then "Complete 16-bit UUIDs"
  else if ad_type = 0x06 then "Incomplete 128-bit UUIDs"
  else if ad_type = 0x07 then "Complete 128-bit UUIDs"
  else if ad_type = 0x08 then "Shortened Local Name"
  else if ad_type = 0x09 then "Complete Local Name"
  else if ad_type = 0x0A then "TX Power Level"
  else if ad_type = 0x16 then "Service Data (16-bit)"
  else if ad_type = 0xFF then "Manufacturer Specific"
  else "Type_0x" ++ hexPadUpper 2 ad_type

/-- `get_company_name` from `ti_psd_parser.py`. -/
def get_company_name (company_id : Nat) : String :=
  if company_id = 0x004C then "Apple"
  else if company_id = 0x04D8 then "Fujifilm"
  else if company_id = 0x0006 then "Microsoft"
  else if company_id = 0x0059 then "Nordic Semiconductor"
  else if company_id = 0x00E0 then "Google"
  else if company_id = 0x0075 then "Samsung"
  else if company_id = 0x000D then "Texas Instruments"
  else if company_id = 0x0046 then "Mediatek"
  else if company_id = 0x02E0 then "Fitbit"
  else "Company_0x" ++ hexPadUpper 4 company_id

/-- The Unicode replacement character U+FFFD. -/
def replChar : Char := Char.ofNat 0xFFFD

/-- Is `c` a UTF-8 continuation byte (`0x80..0xBF`)? -/
def isCont (c : Nat) : Bool := 0x80 ≤ c && c ≤ 0xBF

/-- Valid first continuation byte after a 3-byte lead `b` (`0xE0..0xEF`). -/
def cont1OK3 (b c : Nat) : Bool :=
  if b = 0xE0 then 0xA0 ≤ c && c ≤ 0xBF
  else if b = 0xED then 0x80 ≤ c && c ≤ 0x9F
  else isCont c

/-- Valid first continuation byte after a 4-byte lead `b` (`0xF0..0xF4`). -/
def cont1OK4 (b c : Nat) : Bool :=
  if b = 0xF0 then 0x90 ≤ c && c ≤ 0xBF
  else if b = 0xF4 then 0x80 ≤ c && c ≤ 0x8F
  else isCont c

/-- Python `bytes.decode('utf-8', errors='replace')`: UTF-8 decoding where
each maximal subpart of an ill-formed subsequence becomes one U+FFFD.
Fuel-structural: every step consumes at least one byte, so fuel equal to
the list length (as supplied by `utf8DecodeReplace`) never runs out. -/
def utf8DecodeReplaceAux : Nat → List Nat → List Char
  | _, [] => []
  | 0, _ :: _ => []
  | fuel + 1, b :: rest =>
    if b ≤ 0x7F then Char.ofNat b :: utf8DecodeReplaceAux fuel rest
    else if b < 0xC2 then replChar :: utf8DecodeReplaceAux fuel rest
    else if b ≤ 0xDF then
      match rest with
      | [] => [replChar]
      | c1 :: rest2 =>
        if isCont c1 then
          Char.ofNat ((b - 0xC0) * 0x40 + (c1 - 0x80)) :: utf8DecodeReplaceAux fuel rest2
        else replChar :: utf8DecodeReplaceAux fuel (c1 :: rest2)
    else if b ≤ 0xEF then
      match rest with
      | [] => [replChar]
      | c1 :: rest2 =>
        if cont1OK3 b c1 then
          match rest2 with
          | [] => [replChar]
          | c2 :: rest3 =>
            if isCont c2 then
              Char.ofNat ((b - 0xE0) * 0x1000 + (c1 - 0x80) * 0x40 + (c2 - 0x80)) ::
                utf8DecodeReplaceAux fuel rest3
            else replChar :: utf8DecodeReplaceAux fuel (c2 :: rest3)
        else replChar :: utf8DecodeReplaceAux fuel (c1 :: rest2)
    else if b ≤ 0xF4 then
      match rest with
      | [] => [replChar]
      | c1 :: rest2 =>
        if cont1OK4 b c1 then
          match rest2 with
          | [] => [replChar]
          | c2 :: rest3 =>
            if isCont c2 then
              match rest3 with
              | [] => [replChar]
              | c3 :: rest4 =>
                if isCont c3 then
                  Char.ofNat ((b - 0xF0) * 0x40000 + (c1 - 0x80) * 0x1000 +
                      (c2 - 0x80) * 0x40 + (c3 - 0x80)) :: utf8DecodeReplaceAux fuel rest4
                else replChar :: utf8DecodeReplaceAux fuel (c3 :: rest4)
            else replChar :: utf8DecodeReplaceAux fuel (c2 :: rest3)
        else replChar :: utf8DecodeReplaceAux fuel (c1 :: rest2)
    else replChar :: utf8DecodeReplaceAux fuel rest

/-- UTF-8 decode with replacement; fuel = input length always suffices. -/
def utf8DecodeReplace (l : List Nat) : List Char :=
  utf8DecodeReplaceAux l.length l

/-- Python `str.rstrip('\x00')`: remove all trailing NUL characters. -/
def rstripNul (cs : List Char) : List Char :=
  (cs.reverse.dropWhile (fun c => c = Char.ofNat 0)).reverse

/-- `ad_data.decode('utf-8', errors='replace').rstrip('\x00')`. -/
def decodeName (b : List Nat) : String :=
  ⟨rstripNul (utf8DecodeReplace b)⟩

/-- One advertising-data element: the dict built inside `parse_ad_structures`.
Keys set only on some branches are modelled with `Option` (`none` = key absent). -/
structure ADStructure where
  type : Nat
  type_name : String
  data_hex : String
  length : Nat
  name : Option String := none
  flags : Option (List String) := none
  tx_power : Option Int := none
  company_id : Option Nat := none
  company_name : Option String := none
  mfg_data : Option String := none
  uuids : Option (List String) := none
deriving DecidableEq

/-- The `info` dict threaded through `parse_ad_structures`.
`none` = key absent; plain Python assignment overwrites (last write wins),
`setdefault(...).extend(...)` accumulates. -/
structure ADInfo where
  flags : Option (List String) := none
  device_name : Option String := none
  tx_power : Option Int := none
  manufacturer : Option String := none
  manufacturer_data : Option String := none
  service_uuids : Option (List String) := none
deriving DecidableEq

/-- Python `struct.unpack('<H', l)[0]` on an exactly-2-byte slice
(total version; callers in the source only pass exact 2-byte slices). -/
def unpackH (l : List Nat) : Nat :=
  l.getD 0 0 + 256 * l.getD 1 0

/-- The flags-bit decoding of AD type 0x01 in `parse_ad_structures`. -/
def decodeFlags (f : Nat) : List String :=
  (if Nat.land f 0x01 ≠ 0 then ["LE Limited Discoverable"] else []) ++
  (if Nat.land f 0x02 ≠ 0 then ["LE General Discoverable"] else []) ++
  (if Nat.land f 0x04 ≠ 0 then ["BR/EDR Not Supported"] else []) ++
  (if Nat.land f 0x08 ≠ 0 then ["LE+BR/EDR Controller"] else []) ++
  (if Nat.land f 0x10 ≠ 0 then ["LE+BR/EDR Host"] else [])

/-- Python `f"0x{uuid:04X}"`. -/
def uuidStr (uuid : Nat) : String := "0x" ++ hexPadUpper 4 uuid

/-- The 16-bit UUID loop of `parse_ad_structures`
(`for j in range(0, len(ad_data), 2): if j + 2 <= len(ad_data): ...`):
consecutive little-endian byte pairs, a trailing odd byte dropped. -/
def parse16BitUUIDs : List Nat → List String
  | a :: b :: rest => uuidStr (a + 256 * b) :: parse16BitUUIDs rest
  | _ => []

/-- The per-element body of `parse_ad_structures`: builds the structure dict
and applies its updates to the `info` dict, given the declared `length`,
the type byte and the data slice. -/
def mkADStructure (length ad_type : Nat) (ad_data : List Nat) (info : ADInfo) :
    ADStructure × ADInfo :=
  let structure0 : ADStructure :=
    { type := ad_type
      type_name := get_ad_type_name ad_type
      data_hex := bytes_hex ad_data
      length := length - 1 }
  if ad_type = 0x01 ∧ ad_data ≠ [] then
    let flags := decodeFlags (ad_data.getD 0 0)
    ({ structure0 with flags := some flags }, { info with flags := some flags })
  else if (ad_type = 0x08 ∨ ad_type = 0x09) ∧ ad_data ≠ [] then
    let name := decodeName ad_data
    ({ structure0 with name := some name }, { info with device_name := some name })
  else if ad_type = 0x0A ∧ ad_data ≠ [] then
    let tx0 := ad_data.getD 0 0
    let tx : Int := if 127 < tx0 then (tx0 : Int) - 256 else (tx0 : Int)
    ({ structure0 with tx_power := some tx }, { info with tx_power := some tx })
  else if ad_type = 0xFF ∧ 2 ≤ ad_data.length then
    let company_id := unpackH (ad_data.take 2)
    ({ structure0 with
        company_id := some company_id
        company_name := some (get_company_name company_id)
        mfg_data := some (bytes_hex (ad_data.drop 2)) },
     { info with
        manufacturer := some (get_company_name company_id)
        manufacturer_data := some (bytes_hex (ad_data.drop 2)) })
  else if ad_type = 0x02 ∨ ad_type = 0x03 then
    let uuids := parse16BitUUIDs ad_data
    ({ structure0 with uuids := some uuids },
     { info with service_uuids := some ((info.service_uuids).getD [] ++ uuids) })
  else (structure0, info)

/-- The `while i < len(data) - 1` loop of `parse_ad_structures`, fuel-indexed
so that it is a total structural recursion; `none` means the fuel ran out
(shown impossible for fuel `> len data - i` below). -/
def adLoop (data : List Nat) : Nat → Nat → List ADStructure → ADInfo →
    Option (List ADStructure × ADInfo)
  | 0, _, _, _ => none
  | fuel + 1, i, structures, info =>
    if i < data.length - 1 then
      let length := data.getD i 0
      if length = 0 ∨ data.length ≤ i + length then some (structures, info)
      else
        let ad_type := data.getD (i + 1) 0
        let ad_data := (data.drop (i + 2)).take (length - 1)
        let si := mkADStructure length ad_type ad_data info
        adLoop data fuel (i + length + 1) (structures ++ [si.1]) si.2
    else some (structures, info)

/-- `parse_ad_structures` from `ti_psd_parser.py`: returns the ordered element
list and the flattened `info` summary.  Fuel `len data + 1` always suffices
(each iteration advances `i` by at least 2). -/
def parse_ad_structures (data : List Nat) : List ADStructure × ADInfo :=
  (adLoop data (data.length + 1) 0 [] {}).getD ([], {})

/-- The `BLEPacket` dataclass from `ti_psd_parser.py`, with the same field
names and Python's default values (`""`, `0`, `0.0`, `None`, `[]`, `False`).
`timestamp_us`, `conn_interval` and `conn_timeout` are Python floats,
modelled with `ℚ` (exact for the arithmetic the source performs). -/
structure BLEPacket where
  record_num : Nat
  packet_num : Nat
  timestamp : Nat
  timestamp_us : ℚ
  payload_len : Nat
  raw_payload : List Nat
  access_address : String := ""
  pdu_type : Nat := 0
  pdu_type_name : String := ""
  pdu_length : Nat := 0
  tx_addr_type : String := ""
  adv_address : String := ""
  scanner_address : String := ""
  initiator_address : String := ""
  target_address : String := ""
  device_name : String := ""
  manufacturer : String := ""
  manufacturer_data : String := ""
  tx_power : Option Int := none
  flags : List String := []
  service_uuids : List String := []
  ad_structures : List ADStructure := []
  rssi : Int := 0
  channel : Nat := 0
  crc_ok : Bool := false
  conn_access_addr : String := ""
  conn_crc_init : String := ""
  conn_interval : ℚ := 0
  conn_latency : Nat := 0
  conn_timeout : ℚ := 0
deriving DecidableEq

/-- `parse_ble_packet` from `ti_psd_parser.py` (total model; the
`Except`-instrumented twin `parse_ble_packetE` below errors exactly where
CPython would raise).  Python negative indices `raw[-2]`, `raw[-1]` become
`getD (len - 2)`, `getD (len - 1)`; slices become `drop`/`take`. -/
def parse_ble_packet (raw : List Nat) (record_num packet_num timestamp : Nat) :
    BLEPacket :=
  let pkt : BLEPacket :=
    { record_num := record_num
      packet_num := packet_num
      timestamp := timestamp
      timestamp_us := (timestamp : ℚ) / 32
      payload_len := raw.length
      raw_payload := raw }
  if raw.length < 6 then pkt
  else
    let pkt := { pkt with access_address := bytes_hex (raw.take 4) }
    if raw.take 4 ≠ BLE_ADV_ACCESS_ADDR then
      { pkt with pdu_type_name := "DATA_CHANNEL" }
    else
      let pdu_header := (raw.drop 4).take 2
      let b4 := pdu_header.getD 0 0
      let b5 := pdu_header.getD 1 0
      let pdu_type := Nat.land b4 0x0F
      let pkt :=
        { pkt with
            pdu_type := pdu_type
            pdu_type_name := get_pdu_type_name pdu_type
            tx_addr_type := if Nat.land (b4 >>> 6) 0x01 ≠ 0 then "Random" else "Public"
            pdu_length := Nat.land b5 0x3F }
      let pkt :=
        if 2 ≤ raw.length then
          let rssi_raw := raw.getD (raw.length - 2) 0
          let status := raw.getD (raw.length - 1) 0
          { pkt with
              rssi := (if 127 < rssi_raw then (rssi_raw : Int) - 256 else (rssi_raw : Int)) - 73
              channel := Nat.land status 0x3F
              crc_ok := Nat.land status 0x80 != 0 }
        else pkt
      if pdu_type = 0x00 ∨ pdu_type = 0x02 ∨ pdu_type = 0x06 then
        if 12 ≤ raw.length then
          let pkt := { pkt with adv_address := bytes_to_mac ((raw.drop 6).take 6) }
          let adv_data := if 14 < raw.length then (raw.drop 12).take (raw.length - 2 - 12) else []
          if adv_data ≠ [] then
            let si := parse_ad_structures adv_data
            { pkt with
                ad_structures := si.1
                device_name := (si.2.device_name).getD ""
                manufacturer := (si.2.manufacturer).getD ""
                manufacturer_data := (si.2.manufacturer_data).getD ""
                tx_power := si.2.tx_power
                flags := (si.2.flags).getD []
                service_uuids := (si.2.service_uuids).getD [] }
          else pkt
        else pkt
      else if pdu_type = 0x04 then
        if 12 ≤ raw.length then
          let pkt := { pkt with adv_address := bytes_to_mac ((raw.drop 6).take 6) }
          let adv_data := if 14 < raw.length then (raw.drop 12).take (raw.length - 2 - 12) else []
          if adv_data ≠ [] then
            let si := parse_ad_structures adv_data
            { pkt with
                ad_structures := si.1
                device_name := (si.2.device_name).getD ""
                manufacturer := (si.2.manufacturer).getD ""
                manufacturer_data := (si.2.manufacturer_data).getD "" }
          else pkt
        else pkt
      else if pdu_type = 0x03 then
        if 18 ≤ raw.length then
          { pkt with
              scanner_address := bytes_to_mac ((raw.drop 6).take 6)
              adv_address := bytes_to_mac ((raw.drop 12).take 6) }
        else pkt
      else if pdu_type = 0x05 then
        if 40 ≤ raw.length then
          let ll_data := (raw.drop 18).take 22
          { pkt with
              initiator_address := bytes_to_mac ((raw.drop 6).take 6)
              adv_address := bytes_to_mac ((raw.drop 12).take 6)
              conn_access_addr := bytes_hex ((ll_data.take 4).reverse)
              conn_crc_init := bytes_hex ((ll_data.drop 4).take 3)
              conn_interval := (unpackH ((ll_data.drop 10).take 2) : ℚ) * 1.25
              conn_latency := unpackH ((ll_data.drop 12).take 2)
              conn_timeout := (unpackH ((ll_data.drop 14).take 2) : ℚ) * 10 }
        else pkt
      else pkt

/-- Little-endian value of a byte list (`struct.unpack('<I'/'<Q', ...)` on an
exact slice). -/
def leNat (l : List Nat) : Nat :=
  l.foldr (fun b acc => b + 256 * acc) 0

/-- The payload slice `data[offset+16 : offset+16+payload_len]` of record
`rec_num` in `parse_psd_file` (with `offset = rec_num * RECORD_SIZE` and
`payload_len = data[offset+15]`). -/
def extract_payload (data : List Nat) (rec_num : Nat) : List Nat :=
  (data.drop (rec_num * RECORD_SIZE + 16)).take (data.getD (rec_num * RECORD_SIZE + 15) 0)

/-- `parse_psd_file` from `ti_psd_parser.py`, on the file contents as a byte
list: iterates the `len(data) // RECORD_SIZE` complete records, appending a
parsed packet for each whose payload has at least 4 bytes.  The source also
reads `packet_info` (offset 0) and `total_len` (offsets 13..15) of each
record but never uses them; both reads are in bounds for complete records,
so they are elided here. -/
def parse_psd_file (data : List Nat) : List BLEPacket :=
  (List.range (data.length / RECORD_SIZE)).foldl
    (fun packets rec_num =>
      let offset := rec_num * RECORD_SIZE
      let packet_num := leNat ((data.drop (offset + 1)).take 4)
      let timestamp := leNat ((data.drop (offset + 5)).take 8)
      let payload := extract_payload data rec_num
      if 4 ≤ payload.length then
        packets ++ [parse_ble_packet payload (rec_num + 1) packet_num timestamp]
      else packets)
    []

/-! Converter (`it_psd_to_pcap.py`): on-disk byte layout of the pcap output. -/

/-- `struct.pack('<H', n)`. -/
def u16leBytes (n : Nat) : List Nat := [n % 256, n / 256 % 256]

/-- `struct.pack('<I', n)`. -/
def u32leBytes (n : Nat) : List Nat :=
  [n % 256, n / 256 % 256, n / 65536 % 256, n / 16777216 % 256]

/-- `DLT_BLUETOOTH_LE_LL = 251`. -/
def DLT_BLUETOOTH_LE_LL : Nat := 251

/-- `DLT_PPI = 192` (local constant of `convert_psd_to_pcap_with_ppi`). -/
def DLT_PPI : Nat := 192

/-- `write_pcap_header`: `struct.pack('<IHHIIII', 0xa1b2c3d4, 2, 4, 0, 0,
65535, link_type)`. -/
def pcap_global_header (link_type : Nat) : List Nat :=
  u32leBytes 0xa1b2c3d4 ++ u16leBytes 2 ++ u16leBytes 4 ++
    u32leBytes 0 ++ u32leBytes 0 ++ u32leBytes 65535 ++ u32leBytes link_type

/-- `write_pcap_packet`: `struct.pack('<IIII', ts_sec, ts_usec, len(data),
len(data))` followed by `data`.  `ts_sec`/`ts_usec` are the integers the
caller computed from the (float) relative timestamp. -/
def write_pcap_packet_bytes (ts_sec ts_usec : Nat) (data : List Nat) : List Nat :=
  u32leBytes ts_sec ++ u32leBytes ts_usec ++
    u32leBytes data.length ++ u32leBytes data.length ++ data

/-- The per-packet PPI header built in `convert_psd_to_pcap_with_ppi`:
`struct.pack('<BBHI', ppi_version, ppi_flags, ppi_header_len, ppi_dlt)`
with `ppi_version = 0`, `ppi_flags = 0`, `ppi_header_len = 8`,
`ppi_dlt = DLT_BLUETOOTH_LE_LL`. -/
def ppi_header_bytes : List Nat :=
  [0 % 256, 0 % 256] ++ u16leBytes 8 ++ u32leBytes DLT_BLUETOOTH_LE_LL

/-- The RSSI/channel extraction of `convert_psd_to_pcap_with_ppi`
(lines 150–157): same numeric contract as `parse_ble_packet`, with the
`(-100, 0)` fallback for payloads shorter than 2 bytes. -/
def ppi_rssi_channel (payload : List Nat) : Int × Nat :=
  if 2 ≤ payload.length then
    let rssi_raw := payload.getD (payload.length - 2) 0
    ((if 127 < rssi_raw then (rssi_raw : Int) - 256 else (rssi_raw : Int)) - 73,
      Nat.land (payload.getD (payload.length - 1) 0) 0x3F)
  else (-100, 0)

/-- One record as written by the PPI-mode output loop for a parsed tuple
`(timestamp_us, payload, rssi, channel)`:
`full_packet = ppi_header + payload`, then `write_pcap_packet`.
`rssi` and `channel` are the tuple components carried to the loop. -/
def ppi_emit_record (ts_sec ts_usec : Nat) (payload : List Nat)
    (rssi : Int) (channel : Nat) : List Nat :=
  write_pcap_packet_bytes ts_sec ts_usec (ppi_header_bytes ++ payload)

/-! `Except`-instrumented twins: they error exactly where CPython raises
(out-of-range sequence indexing, `struct.unpack` on a wrongly sized
buffer), and are proved below to always return `.ok` of the total model. -/

/-- Python sequence indexing `l[i]`, including negative indices;
`IndexError` when out of range. -/
def pyGetE (l : List Nat) (i : Int) : Except String Nat :=
  let j : Int := if i < 0 then i + l.length else i
  if 0 ≤ j ∧ j < (l.length : Int) then .ok (l.getD j.toNat 0) else .error "IndexError"

/-- Python `struct.unpack('<H', l)[0]`: requires exactly 2 bytes. -/
def unpackHE (l : List Nat) : Except String Nat :=
  match l with
  | [a, b] => .ok (a + 256 * b)
  | _ => .error "struct.error"

/-- `Except` twin of `mkADStructure`. -/
def mkADStructureE (length ad_type : Nat) (ad_data : List Nat) (info : ADInfo) :
    Except String (ADStructure × ADInfo) :=
  let structure0 : ADStructure :=
    { type := ad_type
      type_name := get_ad_type_name ad_type
      data_hex := bytes_hex ad_data
      length := length - 1 }
  if ad_type = 0x01 ∧ ad_data ≠ [] then
    match pyGetE ad_data 0 with
    | .error e => .error e
    | .ok f =>
      let flags := decodeFlags f
      .ok ({ structure0 with flags := some flags }, { info with flags := some flags })
  else if (ad_type = 0x08 ∨ ad_type = 0x09) ∧ ad_data ≠ [] then
    let name := decodeName ad_data
    .ok ({ structure0 with name := some name }, { info with device_name := some name })
  else if ad_type = 0x0A ∧ ad_data ≠ [] then
    match pyGetE ad_data 0 with
    | .error e => .error e
    | .ok tx0 =>
      let tx : Int := if 127 < tx0 then (tx0 : Int) - 256 else (tx0 : Int)
      .ok ({ structure0 with tx_power := some tx }, { info with tx_power := some tx })
  else if ad_type = 0xFF ∧ 2 ≤ ad_data.length then
    match unpackHE (ad_data.take 2) with
    | .error e => .error e
    | .ok company_id =>
      .ok ({ structure0 with
              company_id := some company_id
              company_name := some (get_company_name company_id)
              mfg_data := some (bytes_hex (ad_data.drop 2)) },
           { info with
              manufacturer := some (get_company_name company_id)
              manufacturer_data := some (bytes_hex (ad_data.drop 2)) })
  else if ad_type = 0x02 ∨ ad_type = 0x03 then
    let uuids := parse16BitUUIDs ad_data
    .ok ({ structure0 with uuids := some uuids },
         { info with service_uuids := some ((info.service_uuids).getD [] ++ uuids) })
  else .ok (structure0, info)

/-- `Except` twin of `adLoop` (fuel exhaustion is also an error). -/
def adLoopE (data : List Nat) : Nat → Nat → List ADStructure → ADInfo →
    Except String (List ADStructure × ADInfo)
  | 0, _, _, _ => .error "fuel"
  | fuel + 1, i, structures, info =>
    if i < data.length - 1 then
      match pyGetE data i with
      | .error e => .error e
      | .ok length =>
        if length = 0 ∨ data.length ≤ i + length then .ok (structures, info)
        else
          match pyGetE data (i + 1) with
          | .error e => .error e
          | .ok ad_type =>
            let ad_data := (data.drop (i + 2)).take (length - 1)
            match mkADStructureE length ad_type ad_data info with
            | .error e => .error e
            | .ok si => adLoopE data fuel (i + length + 1) (structures ++ [si.1]) si.2
    else .ok (structures, info)

/-- `Except` twin of `parse_ad_structures`. -/
def parse_ad_structuresE (data : List Nat) :
    Except String (List ADStructure × ADInfo) :=
  adLoopE data (data.length + 1) 0 [] {}

/-- `Except` twin of `parse_ble_packet`. -/
def parse_ble_packetE (raw : List Nat) (record_num packet_num timestamp : Nat) :
    Except String BLEPacket :=
  let pkt : BLEPacket :=
    { record_num := record_num
      packet_num := packet_num
      timestamp := timestamp
      timestamp_us := (timestamp : ℚ) / 32
      payload_len := raw.length
      raw_payload := raw }
  if raw.length < 6 then .ok pkt
  else
    let pkt := { pkt with access_address := bytes_hex (raw.take 4) }
    if raw.take 4 ≠ BLE_ADV_ACCESS_ADDR then
      .ok { pkt with pdu_type_name := "DATA_CHANNEL" }
    else
      let pdu_header := (raw.drop 4).take 2
      match pyGetE pdu_header 0 with
      | .error e => .error e
      | .ok b4 =>
        match pyGetE pdu_header 1 with
        | .error e => .error e
        | .ok b5 =>
          let pdu_type := Nat.land b4 0x0F
          let pkt :=
            { pkt with
                pdu_type := pdu_type
                pdu_type_name := get_pdu_type_name pdu_type
                tx_addr_type := if Nat.land (b4 >>> 6) 0x01 ≠ 0 then "Random" else "Public"
                pdu_length := Nat.land b5 0x3F }
          let step : Except String BLEPacket :=
            if 2 ≤ raw.length then
              match pyGetE raw (-2) with
              | .error e => .error e
              | .ok rssi_raw =>
                match pyGetE raw (-1) with
                | .error e => .error e
                | .ok status =>
                  .ok { pkt with
                          rssi := (if 127 < rssi_raw then (rssi_raw : Int) - 256
                                   else (rssi_raw : Int)) - 73
                          channel := Nat.land status 0x3F
                          crc_ok := Nat.land status 0x80 != 0 }
            else .ok pkt
          match step with
          | .error e => .error e
          | .ok pkt =>
            if pdu_type = 0x00 ∨ pdu_type = 0x02 ∨ pdu_type = 0x06 then
              if 12 ≤ raw.length then
                let pkt := { pkt with adv_address := bytes_to_mac ((raw.drop 6).take 6) }
                let adv_data :=
                  if 14 < raw.length then (raw.drop 12).take (raw.length - 2 - 12) else []
                if adv_data ≠ [] then
                  match parse_ad_structuresE adv_data with
                  | .error e => .error e
                  | .ok si =>
                    .ok { pkt with
                            ad_structures := si.1
                            device_name := (si.2.device_name).getD ""
                            manufacturer := (si.2.manufacturer).getD ""
                            manufacturer_data := (si.2.manufacturer_data).getD ""
                            tx_power := si.2.tx_power
                            flags := (si.2.flags).getD []
                            service_uuids := (si.2.service_uuids).getD [] }
                else .ok pkt
              else .ok pkt
            else if pdu_type = 0x04 then
              if 12 ≤ raw.length then
                let pkt := { pkt with adv_address := bytes_to_mac ((raw.drop 6).take 6) }
                let adv_data :=
                  if 14 < raw.length then (raw.drop 12).take (raw.length - 2 - 12) else []
                if adv_data ≠ [] then
                  match parse_ad_structuresE adv_data with
                  | .error e => .error e
                  | .ok si =>
                    .ok { pkt with
                            ad_structures := si.1
                            device_name := (si.2.device_name).getD ""
                            manufacturer := (si.2.manufacturer).getD ""
                            manufacturer_data := (si.2.manufacturer_data).getD "" }
                else .ok pkt
              else .ok pkt
            else if pdu_type = 0x03 then
              if 18 ≤ raw.length then
                .ok { pkt with
                        scanner_address := bytes_to_mac ((raw.drop 6).take 6)
                        adv_address := bytes_to_mac ((raw.drop 12).take 6) }
              else .ok pkt
            else if pdu_type = 0x05 then
              if 40 ≤ raw.length then
                let ll_data := (raw.drop 18).take 22
                match unpackHE ((ll_data.drop 10).take 2) with
                | .error e => .error e
                | .ok v10 =>
                  match unpackHE ((ll_data.drop 12).take 2) with
                  | .error e => .error e
                  | .ok v12 =>
                    match unpackHE ((ll_data.drop 14).take 2) with
                    | .error e => .error e
                    | .ok v14 =>
                      .ok { pkt with
                              initiator_address := bytes_to_mac ((raw.drop 6).take 6)
                              adv_address := bytes_to_mac ((raw.drop 12).take 6)
                              conn_access_addr := bytes_hex ((ll_data.take 4).reverse)
                              conn_crc_init := bytes_hex ((ll_data.drop 4).take 3)
                              conn_interval := (v10 : ℚ) * 1.25
                              conn_latency := v12
                              conn_timeout := (v14 : ℚ) * 10 }
              else .ok pkt
            else .ok pkt

/-- Python dict assignment semantics for one optional value: a present new
value overwrites, an absent one keeps the old value. -/
def overwrite {α : Type} (new old : Option α) : Option α :=
  match new with
  | some v => some v
  | none => old

/-- Folds per-element written values left to right, later writes
overwriting earlier ones: the aggregate seen after a sequence of plain
dict assignments (last write wins). -/
def lastWrite {α : Type} (base : Option α) (l : List (Option α)) : Option α :=
  l.foldl (fun acc o => overwrite o acc) base

/-! Helper lemmas. -/

/-- An in-range `getD` is a member of the list. -/
theorem getD_mem_of_lt (l : List Nat) (i : Nat) (h : i < l.length) :
    l.getD i 0 ∈ l := by
  rw [List.getD_eq_getElem l 0 h]
  exact List.getElem_mem h

/-- A 2-byte slice in range is the explicit two-element list. -/
theorem drop_take_two (l : List Nat) (m : Nat) (h : m + 2 ≤ l.length) :
    (l.drop m).take 2 = [l.getD m 0, l.getD (m + 1) 0] := by
  induction m generalizing l with
  | zero =>
    match l, h with
    | a :: b :: t, _ => simp [List.getD]
  | succ m ih =>
    match l, h with
    | a :: t, h =>
      have ht : m + 2 ≤ t.length := by simp at h; omega
      simpa [List.getD] using ih t ht

/-- `pyGetE` with a nonnegative in-range index. -/
theorem pyGetE_nat (l : List Nat) (i : Nat) (h : i < l.length) :
    pyGetE l i = .ok (l.getD i 0) := by
  unfold pyGetE
  have h0 : ¬((i : Int) < 0) := by omega
  rw [if_neg h0, if_pos (by constructor <;> omega)]
  simp

/-- `pyGetE l (-2)` when the list has at least 2 elements. -/
theorem pyGetE_neg2 (l : List Nat) (h : 2 ≤ l.length) :
    pyGetE l (-2) = .ok (l.getD (l.length - 2) 0) := by
  unfold pyGetE
  rw [if_pos (by omega), if_pos (by omega)]
  congr 2
  omega

/-- `pyGetE l (-1)` when the list is nonempty. -/
theorem pyGetE_neg1 (l : List Nat) (h : 1 ≤ l.length) :
    pyGetE l (-1) = .ok (l.getD (l.length - 1) 0) := by
  unfold pyGetE
  rw [if_pos (by omega), if_pos (by omega)]
  congr 2
  omega

/-- `unpackHE` agrees with `unpackH` on an in-range 2-byte slice. -/
theorem unpackHE_drop_take (l : List Nat) (m : Nat) (h : m + 2 ≤ l.length) :
    unpackHE ((l.drop m).take 2) = .ok (unpackH ((l.drop m).take 2)) := by
  rw [drop_take_two l m h]
  simp [unpackHE, unpackH, List.getD]

/-- `pyGetE` at the literal index `0` on a nonempty list. -/
theorem pyGetE_zero (l : List Nat) (h : l ≠ []) :
    pyGetE l 0 = .ok (l.getD 0 0) := by
  have h0 : (0 : Int) = ((0 : Nat) : Int) := by norm_num
  rw [h0, pyGetE_nat l 0 (List.length_pos.mpr h)]

/-- `pyGetE` at the index `↑i + 1` (the elaborated form of `l[i + 1]`). -/
theorem pyGetE_succ (l : List Nat) (i : Nat) (h : i + 1 < l.length) :
    pyGetE l ((i : Int) + 1) = .ok (l.getD (i + 1) 0) := by
  have h0 : ((i : Int) + 1) = (((i + 1 : Nat)) : Int) := by push_cast; ring
  rw [h0, pyGetE_nat l (i + 1) h]

/-- The checked per-element body never errors and agrees with the total one. -/
theorem mkADStructureE_eq (length ad_type : Nat) (ad_data : List Nat) (info : ADInfo) :
    mkADStructureE length ad_type ad_data info =
      .ok (mkADStructure length ad_type ad_data info) := by
  unfold mkADStructureE mkADStructure
  split_ifs with h1 h2 h3 h4 h5
  · simp only [pyGetE_zero ad_data h1.2]
  · rfl
  · simp only [pyGetE_zero ad_data h3.2]
  · have h := unpackHE_drop_take ad_data 0 (by omega)
    simp only [List.drop_zero] at h
    simp only [h]
  · rfl
  · rfl

/-- Fuel `> len data - i` suffices for the AD loop, and the checked loop
agrees with the total one (in particular it never raises). -/
theorem adLoop_ok (data : List Nat) :
    ∀ (fuel i : Nat) (structures : List ADStructure) (info : ADInfo),
      data.length - i < fuel →
      adLoop data fuel i structures info =
          some ((adLoop data fuel i structures info).getD ([], {})) ∧
        adLoopE data fuel i structures info =
          .ok ((adLoop data fuel i structures info).getD ([], {})) := by
  intro fuel
  induction fuel with
  | zero => intro i structures info h; omega
  | succ fuel ih =>
    intro i structures info h
    rw [adLoop, adLoopE]
    by_cases hi : i < data.length - 1
    · simp only [if_pos hi, pyGetE_nat data i (by omega)]
      by_cases hstop : data.getD i 0 = 0 ∨ data.length ≤ i + data.getD i 0
      · simp only [if_pos hstop]
        exact ⟨rfl, rfl⟩
      · simp only [if_neg hstop, pyGetE_succ data i (by omega), mkADStructureE_eq]
        have hlen1 : 1 ≤ data.getD i 0 := by
          rcases Nat.eq_zero_or_pos (data.getD i 0) with h0 | h0
          · exact absurd (Or.inl h0) hstop
          · exact h0
        exact ih (i + data.getD i 0 + 1) _ _ (by omega)
    · simp only [if_neg hi]
      exact ⟨rfl, rfl⟩

/-- The top-level AD parser: the fuel `len + 1` never runs out and the
checked parser returns exactly the value of the total parser. -/
theorem parse_ad_structuresE_ok (data : List Nat) :
    parse_ad_structuresE data = .ok (parse_ad_structures data) := by
  have h := adLoop_ok data (data.length + 1) 0 [] {} (by omega)
  rw [parse_ad_structuresE, parse_ad_structures]
  exact h.2

/-- `pyGetE` at the literal index `1`. -/
theorem pyGetE_one (l : List Nat) (h : 1 < l.length) :
    pyGetE l 1 = .ok (l.getD 1 0) := by
  have h0 : (1 : Int) = ((1 : Nat) : Int) := by norm_num
  rw [h0, pyGetE_nat l 1 h]

set_option maxHeartbeats 1600000 in
/-- The checked packet decoder never errors: it returns `.ok` of exactly the
value the total model computes, for every input byte list. -/
theorem parse_ble_packetE_ok (raw : List Nat) (rn pn ts : Nat) :
    parse_ble_packetE raw rn pn ts = .ok (parse_ble_packet raw rn pn ts) := by
  unfold parse_ble_packetE parse_ble_packet
  by_cases h6 : raw.length < 6
  · simp only [if_pos h6]
  · simp only [if_neg h6]
    by_cases hadv : raw.take 4 = BLE_ADV_ACCESS_ADDR
    · simp only [if_neg (not_not_intro hadv)]
      have hph0 : pyGetE ((raw.drop 4).take 2) 0 =
          .ok (((raw.drop 4).take 2).getD 0 0) := by
        apply pyGetE_zero
        rw [drop_take_two raw 4 (by omega)]
        simp
      have hph1 : pyGetE ((raw.drop 4).take 2) 1 =
          .ok (((raw.drop 4).take 2).getD 1 0) := by
        apply pyGetE_one
        simp
        omega
      simp only [hph0, hph1, pyGetE_neg2 raw (by omega), pyGetE_neg1 raw (by omega),
        if_pos (show 2 ≤ raw.length by omega)]
      set b4 := ((raw.drop 4).take 2).getD 0 0 with hb4def
      by_cases hty1 : Nat.land b4 15 = 0 ∨ Nat.land b4 15 = 2 ∨ Nat.land b4 15 = 6
      · simp only [if_pos hty1]
        by_cases h12 : 12 ≤ raw.length
        · simp only [if_pos h12]
          by_cases hne :
              (if 14 < raw.length then (raw.drop 12).take (raw.length - 2 - 12) else []) ≠ []
          · simp only [if_pos hne, parse_ad_structuresE_ok]
          · simp only [if_neg hne]
        · simp only [if_neg h12]
      · simp only [if_neg hty1]
        by_cases hty4 : Nat.land b4 15 = 4
        · simp only [if_pos hty4]
          by_cases h12 : 12 ≤ raw.length
          · simp only [if_pos h12]
            by_cases hne :
                (if 14 < raw.length then (raw.drop 12).take (raw.length - 2 - 12) else []) ≠ []
            · simp only [if_pos hne, parse_ad_structuresE_ok]
            · simp only [if_neg hne]
          · simp only [if_neg h12]
        · simp only [if_neg hty4]
          by_cases hty3 : Nat.land b4 15 = 3
          · simp only [if_pos hty3]
            by_cases h18 : 18 ≤ raw.length
            · simp only [if_pos h18]
            · simp only [if_neg h18]
          · simp only [if_neg hty3]
            by_cases hty5 : Nat.land b4 15 = 5
            · simp only [if_pos hty5]
              by_cases h40 : 40 ≤ raw.length
              · simp only [if_pos h40]
                rw [unpackHE_drop_take ((raw.drop 18).take 22) 10
                      (by simp only [List.length_take, List.length_drop]; omega),
                    unpackHE_drop_take ((raw.drop 18).take 22) 12
                      (by simp only [List.length_take, List.length_drop]; omega),
                    unpackHE_drop_take ((raw.drop 18).take 22) 14
                      (by simp only [List.length_take, List.length_drop]; omega)]
              · simp only [if_neg h40]
            · simp only [if_neg hty5]
    · simp only [if_pos hadv]

set_option maxRecDepth 4096 in
/-- For byte values, masking with `0x3F` is reduction mod 64. -/
theorem land63_mod : ∀ s : Fin 256, Nat.land s.val 63 = s.val % 64 := by decide

set_option maxRecDepth 4096 in
/-- For byte values, the `0x80` mask tests the top bit. -/
theorem land128_top : ∀ s : Fin 256, ((Nat.land s.val 128 != 0) = true) ↔ 128 ≤ s.val := by
  decide

/-- The radio-status fields of an advertising-channel packet, as stored by
`parse_ble_packet` (shared by several claims below). -/
theorem parse_ble_packet_status (raw : List Nat) (rn pn ts : Nat)
    (h6 : 6 ≤ raw.length) (hadv : raw.take 4 = BLE_ADV_ACCESS_ADDR) :
    (parse_ble_packet raw rn pn ts).rssi =
        (if 127 < raw.getD (raw.length - 2) 0 then (raw.getD (raw.length - 2) 0 : Int) - 256
         else (raw.getD (raw.length - 2) 0 : Int)) - 73 ∧
      (parse_ble_packet raw rn pn ts).channel = Nat.land (raw.getD (raw.length - 1) 0) 63 ∧
      (parse_ble_packet raw rn pn ts).crc_ok = (Nat.land (raw.getD (raw.length - 1) 0) 128 != 0) := by
  unfold parse_ble_packet
  rw [if_neg (by omega), if_neg (not_not_intro hadv)]
  simp only [if_pos (show 2 ≤ raw.length by omega)]
  split_ifs <;> simp

/-- C2: the PDU decoder is total — for every record payload byte sequence it
returns a fully-formed `BLEPacket` without raising (the checked model, which
errors exactly where CPython would raise, returns `.ok` of the total value;
fields not written by the taken path keep their declared zero/empty
defaults, as the `BLEPacket` construction starts from those defaults). -/
theorem claim_decoder_total (raw : List Nat) (rn pn ts : Nat) :
    parse_ble_packetE raw rn pn ts = .ok (parse_ble_packet raw rn pn ts) :=
  parse_ble_packetE_ok raw rn pn ts

/-- C7: a payload shorter than 6 bytes yields a packet with only the identity
fields (record index, packet number, timestamp, timestamp in µs, payload
length, raw payload) populated — every other field is its zero/empty
default — and the checked decoder does not error on it. -/
theorem claim_short_payload_identity (raw : List Nat) (rn pn ts : Nat)
    (h : raw.length < 6) :
    parse_ble_packet raw rn pn ts =
        { record_num := rn
          packet_num := pn
          timestamp := ts
          timestamp_us := (ts : ℚ) / 32
          payload_len := raw.length
          raw_payload := raw } ∧
      parse_ble_packetE raw rn pn ts = .ok (parse_ble_packet raw rn pn ts) := by
  constructor
  · unfold parse_ble_packet
    rw [if_pos h]
  · exact parse_ble_packetE_ok raw rn pn ts

/-- Witness for C7 at the concrete 3-byte payload `[1, 2, 3]`. -/
theorem claim_short_payload_identity_witness :
    parse_ble_packet [1, 2, 3] 1 2 3 =
        { record_num := 1
          packet_num := 2
          timestamp := 3
          timestamp_us := (3 : ℚ) / 32
          payload_len := 3
          raw_payload := [1, 2, 3] } ∧
      parse_ble_packetE [1, 2, 3] 1 2 3 = .ok (parse_ble_packet [1, 2, 3] 1 2 3) :=
  claim_short_payload_identity [1, 2, 3] 1 2 3 (by decide)

/-- C8: a payload of length ≥ 6 whose first 4 bytes are not the advertising
access address is classified `DATA_CHANNEL` and returned with only identity
plus classification (hex access address, type name) set; every other field
stays at its zero/empty default. -/
theorem claim_data_channel_minimal (raw : List Nat) (rn pn ts : Nat)
    (h6 : 6 ≤ raw.length) (hne : raw.take 4 ≠ BLE_ADV_ACCESS_ADDR) :
    parse_ble_packet raw rn pn ts =
      { record_num := rn
        packet_num := pn
        timestamp := ts
        timestamp_us := (ts : ℚ) / 32
        payload_len := raw.length
        raw_payload := raw
        access_address := bytes_hex (raw.take 4)
        pdu_type_name := "DATA_CHANNEL" } := by
  unfold parse_ble_packet
  rw [if_neg (by omega), if_pos hne]

/-- Witness for C8 at the concrete all-zero 6-byte payload. -/
theorem claim_data_channel_minimal_witness :
    parse_ble_packet [0, 0, 0, 0, 0, 0] 1 2 3 =
      { record_num := 1
        packet_num := 2
        timestamp := 3
        timestamp_us := (3 : ℚ) / 32
        payload_len := 6
        raw_payload := [0, 0, 0, 0, 0, 0]
        access_address := bytes_hex [0, 0, 0, 0]
        pdu_type_name := "DATA_CHANNEL" } := by
  have h := claim_data_channel_minimal [0, 0, 0, 0, 0, 0] 1 2 3 (by decide) (by decide)
  simpa using h

/-- C3: for every advertising-channel payload (first 4 bytes `D6 BE 89 8E`,
length ≥ 6) the decoded RSSI is `(b − 256 if b > 127 else b) − 73` with `b`
the second-to-last byte, the channel is the low 6 bits of the last byte,
`crc_ok` is its top bit, and the pcap converter (PPI mode) computes the
same RSSI and channel from the payload. -/
theorem claim_rssi_channel_crc (raw : List Nat) (rn pn ts : Nat)
    (h6 : 6 ≤ raw.length) (hadv : raw.take 4 = BLE_ADV_ACCESS_ADDR)
    (hbytes : ∀ x ∈ raw, x < 256) :
    (parse_ble_packet raw rn pn ts).rssi =
        (if 127 < raw.getD (raw.length - 2) 0 then (raw.getD (raw.length - 2) 0 : Int) - 256
         else (raw.getD (raw.length - 2) 0 : Int)) - 73 ∧
      (parse_ble_packet raw rn pn ts).channel = raw.getD (raw.length - 1) 0 % 64 ∧
      ((parse_ble_packet raw rn pn ts).crc_ok = true ↔
        128 ≤ raw.getD (raw.length - 1) 0) ∧
      (ppi_rssi_channel raw).1 = (parse_ble_packet raw rn pn ts).rssi ∧
      (ppi_rssi_channel raw).2 = (parse_ble_packet raw rn pn ts).channel := by
  obtain ⟨hr, hc, hk⟩ := parse_ble_packet_status raw rn pn ts h6 hadv
  have hs : raw.getD (raw.length - 1) 0 < 256 :=
    hbytes _ (getD_mem_of_lt raw (raw.length - 1) (by omega))
  refine ⟨hr, ?_, ?_, ?_, ?_⟩
  · rw [hc]
    exact land63_mod ⟨_, hs⟩
  · rw [hk]
    exact land128_top ⟨_, hs⟩
  · rw [hr]
    unfold ppi_rssi_channel
    rw [if_pos (by omega)]
  · rw [hc]
    unfold ppi_rssi_channel
    rw [if_pos (by omega)]

/-- Witness for C3: raw status byte `0x80` at both positions — RSSI decodes
to `(128 − 256) − 73 = −201` (and with second-to-last byte `0x00` the main
theorem gives `0 − 73 = −73`), channel 0, CRC flag set. -/
theorem claim_rssi_channel_crc_witness :
    (parse_ble_packet [214, 190, 137, 142, 128, 128] 1 0 0).rssi = -201 ∧
      (parse_ble_packet [214, 190, 137, 142, 128, 128] 1 0 0).channel = 0 ∧
      (parse_ble_packet [214, 190, 137, 142, 128, 128] 1 0 0).crc_ok = true := by
  have h := claim_rssi_channel_crc [214, 190, 137, 142, 128, 128] 1 0 0
    (by decide) (by decide) (by decide)
  refine ⟨?_, ?_, ?_⟩
  · rw [h.1]
    decide
  · rw [h.2.1]
    decide
  · exact h.2.2.1.mpr (by decide)

set_option maxHeartbeats 800000 in
/-- C4: for an advertising payload with PDU type `0x05` (CONNECT_IND) and
length ≥ 40, the decoder stores the initiator address from bytes 6..12 and
the advertiser (target) address from bytes 12..18 (both reversed to
colon-hex by `bytes_to_mac`), the connection access address from LL bytes
0..4 reversed, CRC-init from LL bytes 4..7 in forward order, connection
interval = little-endian 16-bit at LL offset 10 (bytes 28..30) × 1.25 ms,
slave latency = little-endian 16-bit at LL offset 12, and supervision
timeout = little-endian 16-bit at LL offset 14 × 10 ms. -/
theorem claim_connect_ind_fields (raw : List Nat) (rn pn ts : Nat)
    (hadv : raw.take 4 = BLE_ADV_ACCESS_ADDR)
    (htype : Nat.land (raw.getD 4 0) 15 = 5) (hlen : 40 ≤ raw.length) :
    (parse_ble_packet raw rn pn ts).pdu_type_name = "CONNECT_IND" ∧
      (parse_ble_packet raw rn pn ts).initiator_address =
        bytes_to_mac ((raw.drop 6).take 6) ∧
      (parse_ble_packet raw rn pn ts).adv_address =
        bytes_to_mac ((raw.drop 12).take 6) ∧
      (parse_ble_packet raw rn pn ts).conn_access_addr =
        bytes_hex (((raw.drop 18).take 4).reverse) ∧
      (parse_ble_packet raw rn pn ts).conn_crc_init =
        bytes_hex ((raw.drop 22).take 3) ∧
      (parse_ble_packet raw rn pn ts).conn_interval =
        ((raw.getD 28 0 + 256 * raw.getD 29 0 : Nat) : ℚ) * 1.25 ∧
      (parse_ble_packet raw rn pn ts).conn_latency =
        raw.getD 30 0 + 256 * raw.getD 31 0 ∧
      (parse_ble_packet raw rn pn ts).conn_timeout =
        ((raw.getD 32 0 + 256 * raw.getD 33 0 : Nat) : ℚ) * 10 := by
  have hph : (raw.drop 4).take 2 = [raw.getD 4 0, raw.getD 5 0] :=
    drop_take_two raw 4 (by omega)
  have hslice : ∀ m : Nat, m + 2 ≤ 22 →
      (((raw.drop 18).take 22).drop m).take 2 = (raw.drop (18 + m)).take 2 := by
    intro m hm
    rw [List.drop_take, List.drop_drop, List.take_take]
    have e1 : 2 ⊓ (22 - m) = 2 := by omega
    rw [e1]
  have h28 : (((raw.drop 18).take 22).drop 10).take 2 =
      [raw.getD 28 0, raw.getD 29 0] := by
    rw [hslice 10 (by omega)]
    exact drop_take_two raw 28 (by omega)
  have h30 : (((raw.drop 18).take 22).drop 12).take 2 =
      [raw.getD 30 0, raw.getD 31 0] := by
    rw [hslice 12 (by omega)]
    exact drop_take_two raw 30 (by omega)
  have h32 : (((raw.drop 18).take 22).drop 14).take 2 =
      [raw.getD 32 0, raw.getD 33 0] := by
    rw [hslice 14 (by omega)]
    exact drop_take_two raw 32 (by omega)
  have htk4 : ((raw.drop 18).take 22).take 4 = (raw.drop 18).take 4 := by
    rw [List.take_take]
    norm_num
  have htk3 : (((raw.drop 18).take 22).drop 4).take 3 = (raw.drop 22).take 3 := by
    rw [List.drop_take, List.drop_drop, List.take_take]
    norm_num
  unfold parse_ble_packet
  rw [if_neg (by omega), if_neg (not_not_intro hadv)]
  simp only [hph, List.getD_cons_zero, List.getD_cons_succ, htype,
    if_pos (show 2 ≤ raw.length by omega)]
  simp only [if_true, if_false, if_pos hlen]
  simp only [h28, h30, h32, htk4, htk3, unpackH, List.getD_cons_zero,
    List.getD_cons_succ, get_pdu_type_name]
  norm_num

/-- Witness for C4: a synthetic 40-byte CONNECT_IND payload whose LL interval
field is `0x0010` decodes to `conn_interval = 16 × 1.25 = 20.0` ms (with
latency 3 and timeout 100 × 10 = 1000 ms). -/
theorem claim_connect_ind_fields_witness :
    (parse_ble_packet
        [214, 190, 137, 142, 5, 34, 1, 2, 3, 4, 5, 6, 7, 8, 9, 10, 11, 12,
          170, 187, 204, 221, 17, 34, 51, 0, 0, 0, 16, 0, 3, 0, 100, 0, 0, 0, 0, 0, 0, 0]
        1 0 0).pdu_type_name = "CONNECT_IND" ∧
      (parse_ble_packet
        [214, 190, 137, 142, 5, 34, 1, 2, 3, 4, 5, 6, 7, 8, 9, 10, 11, 12,
          170, 187, 204, 221, 17, 34, 51, 0, 0, 0, 16, 0, 3, 0, 100, 0, 0, 0, 0, 0, 0, 0]
        1 0 0).conn_interval = 20 ∧
      (parse_ble_packet
        [214, 190, 137, 142, 5, 34, 1, 2, 3, 4, 5, 6, 7, 8, 9, 10, 11, 12,
          170, 187, 204, 221, 17, 34, 51, 0, 0, 0, 16, 0, 3, 0, 100, 0, 0, 0, 0, 0, 0, 0]
        1 0 0).conn_latency = 3 ∧
      (parse_ble_packet
        [214, 190, 137, 142, 5, 34, 1, 2, 3, 4, 5, 6, 7, 8, 9, 10, 11, 12,
          170, 187, 204, 221, 17, 34, 51, 0, 0, 0, 16, 0, 3, 0, 100, 0, 0, 0, 0, 0, 0, 0]
        1 0 0).conn_timeout = 1000 := by
  have h := claim_connect_ind_fields
    [214, 190, 137, 142, 5, 34, 1, 2, 3, 4, 5, 6, 7, 8, 9, 10, 11, 12,
      170, 187, 204, 221, 17, 34, 51, 0, 0, 0, 16, 0, 3, 0, 100, 0, 0, 0, 0, 0, 0, 0]
    1 0 0 (by decide) (by decide) (by decide)
  refine ⟨h.1, ?_, ?_, ?_⟩
  · rw [h.2.2.2.2.2.1]
    norm_num
  · rw [h.2.2.2.2.2.2.1]
    decide
  · rw [h.2.2.2.2.2.2.2]
    norm_num

/-- C6: AD-structure parsing terminates on every input (the loop fuel
`len + 1` never runs out), the checked parser never raises, and whenever
the declared length byte is zero or the declared span would exceed the
remaining buffer, the loop stops returning exactly the elements parsed so
far, in order. -/
theorem claim_ad_parsing_terminates (data : List Nat) :
    (adLoop data (data.length + 1) 0 [] {}).isSome ∧
      parse_ad_structuresE data = .ok (parse_ad_structures data) ∧
      ∀ (fuel i : Nat) (structures : List ADStructure) (info : ADInfo),
        i < data.length - 1 →
        (data.getD i 0 = 0 ∨ data.length ≤ i + data.getD i 0) →
        adLoop data (fuel + 1) i structures info = some (structures, info) := by
  refine ⟨?_, parse_ad_structuresE_ok data, ?_⟩
  · rw [(adLoop_ok data (data.length + 1) 0 [] {} (by omega)).1]
    rfl
  · intro fuel i structures info hi hstop
    rw [adLoop, if_pos hi, if_pos hstop]

/-- Witness for C6 at `[0, 5, 1]`: the declared length 0 at position 0 stops
the loop at once with the (empty) prefix retained. -/
theorem claim_ad_parsing_terminates_witness :
    (adLoop [0, 5, 1] 4 0 [] {}).isSome ∧
      adLoop [0, 5, 1] 4 0 [] {} = some ([], {}) := by
  have h := claim_ad_parsing_terminates [0, 5, 1]
  exact ⟨h.1, h.2.2 3 0 [] {} (by decide) (Or.inl (by decide))⟩

/-- C10: for every complete record of a byte buffer, the extracted payload
has exactly `payload_len` bytes (the byte at record offset 15), because
that byte is at most 255 = `RECORD_SIZE − HEADER_SIZE`, so the slice always
ends at or before the record boundary — the truncation policy cannot
trigger. -/
theorem claim_payload_exact_length (data : List Nat) (rec : Nat)
    (hrec : rec < data.length / RECORD_SIZE) (hbytes : ∀ x ∈ data, x < 256) :
    (extract_payload data rec).length = data.getD (rec * RECORD_SIZE + 15) 0 ∧
      HEADER_SIZE + data.getD (rec * RECORD_SIZE + 15) 0 ≤ RECORD_SIZE := by
  have h271 : RECORD_SIZE = 271 := rfl
  have h16 : HEADER_SIZE = 16 := rfl
  rw [h271] at hrec
  have hle : (rec + 1) * 271 ≤ data.length :=
    (Nat.le_div_iff_mul_le (by norm_num : 0 < 271)).mp hrec
  have hidx : rec * RECORD_SIZE + 15 < data.length := by
    rw [h271]
    omega
  have hb : data.getD (rec * RECORD_SIZE + 15) 0 < 256 :=
    hbytes _ (getD_mem_of_lt data _ hidx)
  constructor
  · unfold extract_payload
    simp only [List.length_take, List.length_drop, h271] at hb ⊢
    omega
  · simp only [h271, h16] at hb ⊢
    omega

set_option maxRecDepth 8192 in
/-- Witness for C10 at a single all-zero record. -/
theorem claim_payload_exact_length_witness :
    (extract_payload (List.replicate 271 0) 0).length =
        (List.replicate 271 0 : List Nat).getD (0 * RECORD_SIZE + 15) 0 ∧
      HEADER_SIZE + (List.replicate 271 0 : List Nat).getD (0 * RECORD_SIZE + 15) 0 ≤
        RECORD_SIZE :=
  claim_payload_exact_length (List.replicate 271 0) 0 (by decide) (by decide)

/-- Folding record numbers while conditionally appending one parsed value per
qualifying element is the same as mapping over the filtered list. -/
theorem foldl_if_append {α : Type} (p : Nat → Prop) [DecidablePred p] (f : Nat → α) :
    ∀ (l : List Nat) (acc : List α),
      l.foldl (fun a r => if p r then a ++ [f r] else a) acc =
        acc ++ (l.filter (fun r => decide (p r))).map f := by
  intro l
  induction l with
  | nil => intro acc; simp
  | cons x xs ih =>
    intro acc
    by_cases hx : p x <;> simp [List.filter_cons, hx, ih]

/-- C1 (amended): the parser iterates exactly `len / 271` complete records in
file order, and emits one packet per record whose extracted payload has at
least 4 bytes — the packet list is the in-order map over exactly those
qualifying records (so its length never exceeds the record count). -/
theorem claim_records_yield_packets (data : List Nat) :
    parse_psd_file data =
        ((List.range (data.length / RECORD_SIZE)).filter
          (fun r => decide (4 ≤ (extract_payload data r).length))).map
          (fun r => parse_ble_packet (extract_payload data r) (r + 1)
            (leNat ((data.drop (r * RECORD_SIZE + 1)).take 4))
            (leNat ((data.drop (r * RECORD_SIZE + 5)).take 8))) ∧
      (parse_psd_file data).length ≤ data.length / RECORD_SIZE := by
  have h := foldl_if_append (fun r => 4 ≤ (extract_payload data r).length)
    (fun r => parse_ble_packet (extract_payload data r) (r + 1)
      (leNat ((data.drop (r * RECORD_SIZE + 1)).take 4))
      (leNat ((data.drop (r * RECORD_SIZE + 5)).take 8)))
    (List.range (data.length / RECORD_SIZE)) []
  constructor
  · exact h
  · rw [show parse_psd_file data =
        ((List.range (data.length / RECORD_SIZE)).filter
          (fun r => decide (4 ≤ (extract_payload data r).length))).map
          (fun r => parse_ble_packet (extract_payload data r) (r + 1)
            (leNat ((data.drop (r * RECORD_SIZE + 1)).take 4))
            (leNat ((data.drop (r * RECORD_SIZE + 5)).take 8))) from h]
    rw [List.length_map]
    exact le_trans (List.length_filter_le _ _) (by rw [List.length_range])

set_option maxRecDepth 8192 in
/-- Counterexample to C1 as stated: a 542-byte all-zero buffer has exactly
two complete records, but parsing yields zero packets (each record's
payload-length byte is 0 < 4), so not every record yields a BLE Packet. -/
theorem claim_records_yield_packets_counterexample :
    (parse_psd_file (List.replicate 542 0)).length ≠
      (List.replicate 542 0 : List Nat).length / RECORD_SIZE := by
  decide

/-- Counterexample to C5 as stated: on advertising data containing two
Complete Local Name elements ("A" then "B"), the flattened summary holds
the name of the LATEST element, `"B"`, not the earliest one `"A"` —
the parser uses plain dict assignment, i.e. last write wins. -/
theorem claim_ad_summary_first_write_counterexample :
    (parse_ad_structures [2, 9, 65, 2, 9, 66]).2.device_name = some "B" ∧
      some "B" ≠ some "A" := by
  constructor
  · decide
  · decide

/-- The per-element body writes `info.device_name` exactly when it records a
`name` on the structure, with the same value (dict assignment semantics). -/
theorem mk_device_name (L t : Nat) (d : List Nat) (info : ADInfo) :
    (mkADStructure L t d info).2.device_name =
      overwrite (mkADStructure L t d info).1.name info.device_name := by
  unfold mkADStructure overwrite
  split_ifs <;> rfl

/-- Same for the manufacturer name via `company_name`. -/
theorem mk_manufacturer (L t : Nat) (d : List Nat) (info : ADInfo) :
    (mkADStructure L t d info).2.manufacturer =
      overwrite (mkADStructure L t d info).1.company_name info.manufacturer := by
  unfold mkADStructure overwrite
  split_ifs <;> rfl

/-- Same for the manufacturer payload via `mfg_data`. -/
theorem mk_manufacturer_data (L t : Nat) (d : List Nat) (info : ADInfo) :
    (mkADStructure L t d info).2.manufacturer_data =
      overwrite (mkADStructure L t d info).1.mfg_data info.manufacturer_data := by
  unfold mkADStructure overwrite
  split_ifs <;> rfl

/-- Loop invariant: the result extends the accumulator, and the summary
name/manufacturer fields are the last-write fold of the newly parsed
elements over the incoming summary. -/
theorem adLoop_lastWrite (data : List Nat) :
    ∀ (fuel i : Nat) (structures : List ADStructure) (info : ADInfo)
      (r : List ADStructure × ADInfo),
      adLoop data fuel i structures info = some r →
      ∃ tail, r.1 = structures ++ tail ∧
        r.2.device_name = lastWrite info.device_name (tail.map ADStructure.name) ∧
        r.2.manufacturer = lastWrite info.manufacturer (tail.map ADStructure.company_name) ∧
        r.2.manufacturer_data =
          lastWrite info.manufacturer_data (tail.map ADStructure.mfg_data) := by
  intro fuel
  induction fuel with
  | zero => intro i structures info r h; simp [adLoop] at h
  | succ fuel ih =>
    intro i structures info r h
    rw [adLoop] at h
    by_cases hi : i < data.length - 1
    · simp only [if_pos hi] at h
      by_cases hstop : data.getD i 0 = 0 ∨ data.length ≤ i + data.getD i 0
      · simp only [if_pos hstop, Option.some.injEq] at h
        subst h
        exact ⟨[], by simp, rfl, rfl, rfl⟩
      · simp only [if_neg hstop] at h
        obtain ⟨tail, ht1, htn, htm, htd⟩ := ih _ _ _ r h
        refine ⟨(mkADStructure (data.getD i 0) (data.getD (i + 1) 0)
            ((data.drop (i + 2)).take (data.getD i 0 - 1)) info).1 :: tail, ?_, ?_, ?_, ?_⟩
        · rw [ht1]
          simp
        · rw [htn, mk_device_name]
          rfl
        · rw [htm, mk_manufacturer]
          rfl
        · rw [htd, mk_manufacturer_data]
          rfl
    · simp only [if_neg hi, Option.some.injEq] at h
      subst h
      exact ⟨[], by simp, rfl, rfl, rfl⟩

/-- C5 (amended): in the flattened summary, device name, manufacturer and
manufacturer data follow LAST-write-wins over the parsed elements (the
fold of dict assignments), not first-write-wins. -/
theorem claim_ad_summary_last_write (data : List Nat) :
    (parse_ad_structures data).2.device_name =
        lastWrite none ((parse_ad_structures data).1.map ADStructure.name) ∧
      (parse_ad_structures data).2.manufacturer =
        lastWrite none ((parse_ad_structures data).1.map ADStructure.company_name) ∧
      (parse_ad_structures data).2.manufacturer_data =
        lastWrite none ((parse_ad_structures data).1.map ADStructure.mfg_data) := by
  have hsome := (adLoop_ok data (data.length + 1) 0 [] {} (by omega)).1
  obtain ⟨tail, h1, hn, hm, hd⟩ :=
    adLoop_lastWrite data (data.length + 1) 0 [] {} _ hsome
  have hps : parse_ad_structures data =
      (adLoop data (data.length + 1) 0 [] {}).getD ([], {}) := rfl
  rw [hps]
  simp only [List.nil_append] at h1
  rw [h1]
  exact ⟨hn, hm, hd⟩

/-- C9 (code bug): in PPI mode each emitted record is the 16-byte per-packet
container header followed by the constant 8-byte PPI header
`00 00 08 00 FB 00 00 00` (version 0, flags 0, length 8, link-type 251) and
the raw payload — the emitted bytes are INDEPENDENT of the RSSI and channel
values the converter computed for the packet, contradicting its own
docstring ("This format includes RSSI and channel information"). -/
theorem claim_ppi_header_drops_rssi (ts_sec ts_usec : Nat) (payload : List Nat)
    (r1 r2 : Int) (c1 c2 : Nat) :
    ppi_emit_record ts_sec ts_usec payload r1 c1 =
        ppi_emit_record ts_sec ts_usec payload r2 c2 ∧
      ppi_emit_record ts_sec ts_usec payload r1 c1 =
        write_pcap_packet_bytes ts_sec ts_usec
          ([0, 0, 8, 0, 251, 0, 0, 0] ++ payload) := by
  constructor
  · rfl
  · rfl
